import Mathlib

/-!
Verification of the FormatFlex authentication/session lifecycle.

This file shallowly embeds the authentication subsystem of the repository:

* `MockAuthService` (src/src/lib/mockAuth.ts): an account store keyed by
  email plus a current-user marker, with `signUp`, `signIn`, `signOut` and
  `getCurrentUser` operations.
* The session context (src/src/contexts/AuthContext.tsx): the
  `{user, session, loading}` state, the mount-time `checkSession` restore,
  and the `signUp` / `signIn` / `signOut` wrappers, plus the `useAuth`
  accessor guard.
* The `ProtectedRoute` rendering decision (modelled from the spec; only the
  test suite of the component is present in the sources).

Asynchrony is embedded by making each settled promise outcome an explicit
argument: a service call either resolves with a result value or rejects
with a message, and each context operation is a pure function from the
pre-call state and that outcome to the post-settlement state together with
the value returned to the caller.
-/

/-- The public user projection (interface `User` in both
`AuthContext.tsx` and `mockAuth.ts`): id, email, creation timestamp. -/
structure User where
  id : String
  email : String
  created_at : String
deriving DecidableEq, Repr

/-- The session wrapper the context constructs around a user:
a user together with the mock token string. -/
structure Session where
  user : User
  access_token : String
deriving DecidableEq, Repr

/-- The session value built at every `setSession` site in
`AuthContext.tsx`: the user together with the mock token string. -/
def mkSession (u : User) : Session :=
  { user := u, access_token := "mock-token" }

/-- Error taxonomy of the auth layer (spec section 7): duplicate
account on sign-up, invalid credentials on sign-in, and an unexpected
error wrapping the message of a thrown rejection. -/
inductive AuthError where
  | duplicateAccount
  | invalidCredentials
  | unexpected (msg : String)
deriving DecidableEq, Repr

/-- Result shape of `signUp`/`signIn` in the mock service
(`interface AuthResult { user?: User; error?: { message: string } }`):
both fields optional. -/
structure AuthResult where
  user : Option User
  error : Option AuthError
deriving DecidableEq, Repr

/-- A stored account record in the `users` map of the mock service:
`{ email, password, id, created_at }`. -/
structure StoredUser where
  email : String
  password : String
  id : String
  created_at : String
deriving DecidableEq, Repr

/-- The public projection of a stored record (id, email, created_at;
password excluded). -/
def publicProjection (su : StoredUser) : User :=
  { id := su.id, email := su.email, created_at := su.created_at }

/-- State of `MockAuthService`: the `users` map keyed by email
(modelled as an association list), the `currentUser` marker, and a
counter modelling fresh opaque id generation. -/
structure MockAuthState where
  users : List (String × StoredUser)
  currentUser : Option User
  nextId : Nat
deriving DecidableEq, Repr

/-- Lookup by email key in the `users` map. -/
def lookupUser : List (String × StoredUser) → String → Option StoredUser
  | [], _ => none
  | (k, v) :: rest, e => if k = e then some v else lookupUser rest e

/-- Modelled from the spec: the bodies of `MockAuthService.signUp` in
src/src/lib/mockAuth.ts are not under src (the file holds only a diff
hunk showing the signature and trailing `return { user }`). Spec section
4.2: fails with `DuplicateAccount` if the email already exists (error as
data, state unchanged); on success creates the account record with a
freshly generated opaque id and current timestamp, persists it, marks it
the active session holder, and returns the public user projection. -/
def mockSignUp (st : MockAuthState) (email password : String) :
    AuthResult × MockAuthState :=
  match lookupUser st.users email with
  | some _ => ({ user := none, error := some .duplicateAccount }, st)
  | none =>
    let su : StoredUser :=
      { email := email, password := password,
        id := toString st.nextId, created_at := toString st.nextId }
    let u := publicProjection su
    ({ user := some u, error := none },
     { users := (email, su) :: st.users,
       currentUser := some u,
       nextId := st.nextId + 1 })

/-- Modelled from the spec: the body of `MockAuthService.signIn` is not
under src (only the diff hunk with the signature). Spec section 4.2:
fails with `InvalidCredentials` if no matching email exists or the
password does not match; on success returns the public user projection
and marks it active. -/
def mockSignIn (st : MockAuthState) (email password : String) :
    AuthResult × MockAuthState :=
  match lookupUser st.users email with
  | some su =>
    if su.password = password then
      ({ user := some (publicProjection su), error := none },
       { st with currentUser := some (publicProjection su) })
    else
      ({ user := none, error := some .invalidCredentials }, st)
  | none => ({ user := none, error := some .invalidCredentials }, st)

/-- `MockAuthService.signOut` (from the diff hunk in mockAuth.ts):
clears `currentUser` (and the persisted marker); always succeeds. -/
def mockSignOut (st : MockAuthState) : MockAuthState :=
  { st with currentUser := none }

/-- `MockAuthService.getCurrentUser` (from the diff hunk in
mockAuth.ts): resolves with `this.currentUser`; never rejects. -/
def mockGetCurrentUser (st : MockAuthState) : Option User :=
  st.currentUser

/-- Modelled from the spec: the `loadFromStorage` body run by the
service constructor is not under src; spec section 4.1 says absent persisted data
yields an empty mapping and no active session. The field initializer
`currentUser: User | null = null` is in the diff hunk. -/
def freshStore : MockAuthState :=
  { users := [], currentUser := none, nextId := 0 }

/-- The session context state `{user, session, loading}` of
`AuthProvider` in AuthContext.tsx. -/
structure AuthState where
  user : Option User
  session : Option Session
  loading : Bool
deriving DecidableEq, Repr

/-- Initial provider state: `useState(null)`, `useState(null)`,
`useState(true)`. -/
def initialAuthState : AuthState :=
  { user := none, session := none, loading := true }

/-- Settled outcome of an awaited `mockAuth.signUp`/`signIn` call:
either resolution with an `AuthResult` or rejection with a message. -/
inductive CallOutcome where
  | resolved (r : AuthResult)
  | rejected (msg : String)
deriving DecidableEq, Repr

/-- Settled outcome of an awaited `mockAuth.signOut()` call. -/
inductive SignOutOutcome where
  | success
  | rejected (msg : String)
deriving DecidableEq, Repr

/-- Settled outcome of the awaited `mockAuth.getCurrentUser()` call made
by `checkSession`. -/
inductive RestoreOutcome where
  | resolved (u : Option User)
  | rejected (msg : String)
deriving DecidableEq, Repr

/-- The `signUp` method of the context (AuthContext.tsx lines 45-65), as a function
of the state at settlement time and the call outcome; returns the new
state and the `{error}` value handed back to the caller (`none` models
`{error: null}`). The `finally` clause sets `loading` to false on every
path; on `result.error` the call returns that error with `user`/`session`
untouched; on `result.user` it sets both and returns `{error: null}`; a
thrown rejection is caught and wrapped as an error message. -/
def ctxSignUp (s : AuthState) (o : CallOutcome) :
    AuthState × Option AuthError :=
  match o with
  | .resolved r =>
    match r.error with
    | some e => ({ s with loading := false }, some e)
    | none =>
      match r.user with
      | some u =>
        ({ user := some u, session := some (mkSession u), loading := false },
         none)
      | none => ({ s with loading := false }, none)
  | .rejected m => ({ s with loading := false }, some (.unexpected m))

/-- The `signIn` method of the context (AuthContext.tsx lines 67-87); its body is
identical in structure to `signUp`. -/
def ctxSignIn (s : AuthState) (o : CallOutcome) :
    AuthState × Option AuthError :=
  match o with
  | .resolved r =>
    match r.error with
    | some e => ({ s with loading := false }, some e)
    | none =>
      match r.user with
      | some u =>
        ({ user := some u, session := some (mkSession u), loading := false },
         none)
      | none => ({ s with loading := false }, none)
  | .rejected m => ({ s with loading := false }, some (.unexpected m))

/-- The `signOut` method of the context (AuthContext.tsx lines 89-97): on a
successful awaited `mockAuth.signOut()` it clears `user` and `session`;
a rejection is caught and only logged, leaving the state as it was. -/
def ctxSignOut (s : AuthState) (o : SignOutOutcome) : AuthState :=
  match o with
  | .success => { s with user := none, session := none }
  | .rejected _ => s

/-- The mount-time `checkSession` (AuthContext.tsx lines 26-43): if
`getCurrentUser` resolved with a user, set `user` and the session
wrapper; a rejection is caught and logged; `finally` sets `loading`
false in every case. -/
def checkSession (s : AuthState) (o : RestoreOutcome) : AuthState :=
  match o with
  | .resolved (some u) =>
    { user := some u, session := some (mkSession u), loading := false }
  | .resolved none => { s with loading := false }
  | .rejected _ => { s with loading := false }

/-- `useAuth` (AuthContext.tsx lines 115-121): reading the context
outside the provider yields `undefined` and the hook throws a
descriptive error; inside, it returns the context value. The thrown
error is modelled as `Except.error` carrying the message. -/
def useAuth (ctx : Option AuthState) : Except String AuthState :=
  match ctx with
  | none => .error "useAuth must be used within an AuthProvider"
  | some v => .ok v

/-- What the route guard renders: exactly one of a loading indicator,
the caller-supplied fallback, the built-in sign-in prompt, or the
protected content. -/
inductive GuardRender where
  | loadingIndicator
  | fallbackView
  | signInPrompt
  | content
deriving DecidableEq, Repr

/-- Modelled from the spec: the `ProtectedRoute` component source is not
under src (only its test suite is). Spec section 4.4: if `loading`,
render a loading indicator and nothing else; else if no `user`, render
the supplied fallback if present and otherwise the built-in sign-in
prompt; else render the protected content unchanged. -/
def protectedRouteRender (loading : Bool) (user : Option User)
    (hasFallback : Bool) : GuardRender :=
  if loading then .loadingIndicator
  else
    match user with
    | none => if hasFallback then .fallbackView else .signInPrompt
    | some _ => .content

/-- An outcome that counts as a failure of the underlying auth
operation: a thrown rejection, or resolution with an error descriptor. -/
def errorOutcome : CallOutcome → Prop
  | .rejected _ => True
  | .resolved r => r.error.isSome = true

/-- An outcome that counts as a success of the underlying auth
operation: resolution with no error and a user present (the shape the
mock service produces on success). -/
def successOutcome : CallOutcome → Prop
  | .rejected _ => False
  | .resolved r => r.error = none ∧ r.user.isSome = true

/-- States reachable through the lifecycle of the session context: the
initial state, followed by settled restore, signUp, signIn and signOut
transitions under arbitrary call outcomes. -/
inductive ReachableAuthState : AuthState → Prop where
  | init : ReachableAuthState initialAuthState
  | restore (s : AuthState) (o : RestoreOutcome) :
      ReachableAuthState s → ReachableAuthState (checkSession s o)
  | signUpStep (s : AuthState) (o : CallOutcome) :
      ReachableAuthState s → ReachableAuthState (ctxSignUp s o).1
  | signInStep (s : AuthState) (o : CallOutcome) :
      ReachableAuthState s → ReachableAuthState (ctxSignIn s o).1
  | signOutStep (s : AuthState) (o : SignOutOutcome) :
      ReachableAuthState s → ReachableAuthState (ctxSignOut s o)

/-- A concrete user for witnesses and counterexamples. -/
def aliceUser : User :=
  { id := "1", email := "alice@example.com", created_at := "0" }

/-- Claim C6: mounting with no persisted account or session data, the
restore transition settles with `loading = false` and `user = none` (and
no session), and no error escapes to the caller (the modelled
`checkSession` is total and swallows rejections). -/
theorem restore_fresh_start_signed_out :
    checkSession initialAuthState (.resolved (mockGetCurrentUser freshStore)) =
      { user := none, session := none, loading := false } := rfl

/-- Claim C7: invoking `useAuth` outside the provider scope (context
value absent) fails fast with the descriptive error message, and
invoking it inside that scope returns the context value without error. -/
theorem useAuth_guard :
    useAuth none = .error "useAuth must be used within an AuthProvider" ∧
    ∀ v : AuthState, useAuth (some v) = .ok v :=
  ⟨rfl, fun _ => rfl⟩

/-- Claim C8: the route guard renders only the loading indicator while
loading; with no user it renders the fallback when supplied and the
built-in sign-in prompt otherwise; with a user it renders the protected
content. -/
theorem protectedRoute_decision :
    (∀ (u : Option User) (f : Bool),
      protectedRouteRender true u f = .loadingIndicator) ∧
    (∀ f : Bool, protectedRouteRender false none f =
      if f then .fallbackView else .signInPrompt) ∧
    (∀ (u : User) (f : Bool),
      protectedRouteRender false (some u) f = .content) :=
  ⟨fun _ _ => rfl, fun _ => rfl, fun _ _ => rfl⟩

/-- Counterexample to claim C2: when the underlying signOut call
rejects, the catch branch only logs, so a signed-in state keeps its
non-null `user` and `session` rather than being cleared. -/
theorem signOut_failure_keeps_user :
    ¬ ((ctxSignOut
          { user := some aliceUser, session := some (mkSession aliceUser),
            loading := false }
          (.rejected "storage failure")).user = none ∧
       (ctxSignOut
          { user := some aliceUser, session := some (mkSession aliceUser),
            loading := false }
          (.rejected "storage failure")).session = none) := by
  decide

/-- Claim C2 as amended: when the underlying signOut resolves
successfully, `user` and `session` are both cleared; when it rejects,
the failure is only logged and the whole state is unchanged from its
pre-call value. -/
theorem signOut_clears_only_on_success (s : AuthState) :
    (ctxSignOut s .success).user = none ∧
    (ctxSignOut s .success).session = none ∧
    ∀ m : String, ctxSignOut s (.rejected m) = s :=
  ⟨rfl, rfl, fun _ => rfl⟩

/-- Claim C10: when the service resolves with a result carrying neither
an error nor a user, both context sign calls return `{error: null}`
while `user` and `session` stay null. -/
theorem empty_result_reports_success (s : AuthState)
    (hu : s.user = none) (hs : s.session = none) :
    (ctxSignUp s (.resolved { user := none, error := none })).2 = none ∧
    (ctxSignUp s (.resolved { user := none, error := none })).1.user = none ∧
    (ctxSignUp s (.resolved { user := none, error := none })).1.session = none ∧
    (ctxSignIn s (.resolved { user := none, error := none })).2 = none ∧
    (ctxSignIn s (.resolved { user := none, error := none })).1.user = none ∧
    (ctxSignIn s (.resolved { user := none, error := none })).1.session = none := by
  simp [ctxSignUp, ctxSignIn, hu, hs]

/-- Witness for claim C10 at the initial provider state. -/
theorem empty_result_reports_success_witness :
    (ctxSignUp initialAuthState (.resolved { user := none, error := none })).2 = none ∧
    (ctxSignUp initialAuthState (.resolved { user := none, error := none })).1.user = none ∧
    (ctxSignUp initialAuthState (.resolved { user := none, error := none })).1.session = none ∧
    (ctxSignIn initialAuthState (.resolved { user := none, error := none })).2 = none ∧
    (ctxSignIn initialAuthState (.resolved { user := none, error := none })).1.user = none ∧
    (ctxSignIn initialAuthState (.resolved { user := none, error := none })).1.session = none :=
  empty_result_reports_success initialAuthState rfl rfl

/-- Claim C9: two sign calls in flight at once (both set `loading`
before either settles); each settlement returns `{error: null}`
independently, and the final `user`/`session` come from whichever
outcome settles last, in either settlement order and also when the two
calls are a signUp and a signIn. -/
theorem last_settlement_wins (s : AuthState) (uA uB : User) :
    ((ctxSignIn { s with loading := true }
        (.resolved { user := some uA, error := none })).2 = none) ∧
    ((ctxSignIn
        (ctxSignIn { s with loading := true }
          (.resolved { user := some uA, error := none })).1
        (.resolved { user := some uB, error := none })).2 = none) ∧
    ((ctxSignIn
        (ctxSignIn { s with loading := true }
          (.resolved { user := some uA, error := none })).1
        (.resolved { user := some uB, error := none })).1.user = some uB) ∧
    ((ctxSignIn
        (ctxSignIn { s with loading := true }
          (.resolved { user := some uA, error := none })).1
        (.resolved { user := some uB, error := none })).1.session =
      some (mkSession uB)) ∧
    ((ctxSignIn
        (ctxSignIn { s with loading := true }
          (.resolved { user := some uB, error := none })).1
        (.resolved { user := some uA, error := none })).1.user = some uA) ∧
    ((ctxSignIn
        (ctxSignIn { s with loading := true }
          (.resolved { user := some uB, error := none })).1
        (.resolved { user := some uA, error := none })).1.session =
      some (mkSession uA)) ∧
    ((ctxSignIn
        (ctxSignUp { s with loading := true }
          (.resolved { user := some uA, error := none })).1
        (.resolved { user := some uB, error := none })).1.user = some uB) ∧
    ((ctxSignUp
        (ctxSignIn { s with loading := true }
          (.resolved { user := some uA, error := none })).1
        (.resolved { user := some uB, error := none })).1.user = some uB) := by
  simp [ctxSignIn, ctxSignUp]

/-- Claim C1: for both context sign calls, `loading` is false once the
call settles; when the underlying operation yields an error (a resolved
error descriptor or a thrown rejection) the call returns an error value
and leaves `user`/`session` at their pre-call values; when it succeeds
(resolves with a user and no error) the call returns `{error: null}`
and `user`/`session` are both non-null afterwards. -/
theorem sign_calls_contract (s : AuthState) (o : CallOutcome) :
    ((ctxSignIn s o).1.loading = false ∧ (ctxSignUp s o).1.loading = false) ∧
    (errorOutcome o →
      (ctxSignIn s o).2.isSome = true ∧
      (ctxSignIn s o).1.user = s.user ∧
      (ctxSignIn s o).1.session = s.session ∧
      (ctxSignUp s o).2.isSome = true ∧
      (ctxSignUp s o).1.user = s.user ∧
      (ctxSignUp s o).1.session = s.session) ∧
    (successOutcome o →
      (ctxSignIn s o).2 = none ∧
      (ctxSignIn s o).1.user.isSome = true ∧
      (ctxSignIn s o).1.session.isSome = true ∧
      (ctxSignUp s o).2 = none ∧
      (ctxSignUp s o).1.user.isSome = true ∧
      (ctxSignUp s o).1.session.isSome = true) := by
  cases o with
  | rejected m =>
    simp [ctxSignIn, ctxSignUp, errorOutcome, successOutcome]
  | resolved r =>
    rcases r with ⟨ru, re⟩
    cases re with
    | some e => simp [ctxSignIn, ctxSignUp, errorOutcome, successOutcome]
    | none =>
      cases ru with
      | some u => simp [ctxSignIn, ctxSignUp, errorOutcome, successOutcome]
      | none => simp [ctxSignIn, ctxSignUp, errorOutcome, successOutcome]

/-- Witness for claim C1: a successful resolution at the initial state
establishes a non-null user and session with a null returned error. -/
theorem sign_calls_contract_witness :
    (ctxSignIn initialAuthState
        (.resolved { user := some aliceUser, error := none })).2 = none ∧
    (ctxSignIn initialAuthState
        (.resolved { user := some aliceUser, error := none })).1.user.isSome = true ∧
    (ctxSignIn initialAuthState
        (.resolved { user := some aliceUser, error := none })).1.session.isSome = true := by
  have h :=
    (sign_calls_contract initialAuthState
        (.resolved { user := some aliceUser, error := none })).2.2
      (by simp [successOutcome])
  exact ⟨h.1, h.2.1, h.2.2.1⟩

/-- Claim C3: in every state reachable through the lifecycle (initial
state and arbitrary settled restore, signUp, signIn and signOut
transitions), `user` is null exactly when `session` is null. -/
theorem user_session_null_together (s : AuthState)
    (h : ReachableAuthState s) : s.user = none ↔ s.session = none := by
  induction h with
  | init => simp [initialAuthState]
  | restore s o hr ih =>
    cases o with
    | resolved u =>
      cases u with
      | some u => simp [checkSession]
      | none => simpa [checkSession] using ih
    | rejected m => simpa [checkSession] using ih
  | signUpStep s o hr ih =>
    cases o with
    | rejected m => simpa [ctxSignUp] using ih
    | resolved r =>
      rcases r with ⟨ru, re⟩
      cases re with
      | some e => simpa [ctxSignUp] using ih
      | none =>
        cases ru with
        | some u => simp [ctxSignUp]
        | none => simpa [ctxSignUp] using ih
  | signInStep s o hr ih =>
    cases o with
    | rejected m => simpa [ctxSignIn] using ih
    | resolved r =>
      rcases r with ⟨ru, re⟩
      cases re with
      | some e => simpa [ctxSignIn] using ih
      | none =>
        cases ru with
        | some u => simp [ctxSignIn]
        | none => simpa [ctxSignIn] using ih
  | signOutStep s o hr ih =>
    cases o with
    | success => simp [ctxSignOut]
    | rejected m => simpa [ctxSignOut] using ih

/-- Witness for claim C3 at the initial state, which is reachable. -/
theorem user_session_null_together_witness :
    initialAuthState.user = none ↔ initialAuthState.session = none :=
  user_session_null_together initialAuthState ReachableAuthState.init

/-- Claim C4: after a first successful signUp for a fresh email, a
second signUp for the same email with any password fails with the
`DuplicateAccount` error carried as data (no user in the result), and
the whole store state — in particular the record held for that email —
is unchanged from the state after the first call. -/
theorem duplicate_signUp_rejected (st : MockAuthState) (e p p2 : String)
    (h : lookupUser st.users e = none) :
    (mockSignUp st e p).1.error = none ∧
    (mockSignUp (mockSignUp st e p).2 e p2).1.error =
      some .duplicateAccount ∧
    (mockSignUp (mockSignUp st e p).2 e p2).1.user = none ∧
    (mockSignUp (mockSignUp st e p).2 e p2).2 = (mockSignUp st e p).2 ∧
    lookupUser (mockSignUp (mockSignUp st e p).2 e p2).2.users e =
      lookupUser (mockSignUp st e p).2.users e := by
  simp [mockSignUp, h, lookupUser]

/-- Witness for claim C4 on a fresh store with a concrete email. -/
theorem duplicate_signUp_rejected_witness :
    lookupUser freshStore.users "alice@example.com" = none ∧
    (mockSignUp (mockSignUp freshStore "alice@example.com" "pw1").2
        "alice@example.com" "pw2").1.error = some .duplicateAccount ∧
    (mockSignUp (mockSignUp freshStore "alice@example.com" "pw1").2
        "alice@example.com" "pw2").2 =
      (mockSignUp freshStore "alice@example.com" "pw1").2 := by
  have h := duplicate_signUp_rejected freshStore "alice@example.com" "pw1" "pw2" rfl
  exact ⟨rfl, h.2.1, h.2.2.2.1⟩

/-- Claim C5: for a fresh email, signUp succeeds (no error, a user
returned), and a subsequent signIn with the same email and password
succeeds and returns a user with the same id. -/
theorem signUp_then_signIn_same_id (st : MockAuthState) (e p : String)
    (h : lookupUser st.users e = none) :
    ∃ u1 u2 : User,
      (mockSignUp st e p).1.error = none ∧
      (mockSignUp st e p).1.user = some u1 ∧
      (mockSignIn (mockSignUp st e p).2 e p).1.error = none ∧
      (mockSignIn (mockSignUp st e p).2 e p).1.user = some u2 ∧
      u2.id = u1.id := by
  refine ⟨publicProjection
      { email := e, password := p,
        id := toString st.nextId, created_at := toString st.nextId },
    publicProjection
      { email := e, password := p,
        id := toString st.nextId, created_at := toString st.nextId },
    ?_, ?_, ?_, ?_, rfl⟩ <;>
    simp [mockSignUp, mockSignIn, h, lookupUser]

/-- Witness for claim C5 on a fresh store with concrete credentials. -/
theorem signUp_then_signIn_same_id_witness :
    lookupUser freshStore.users "alice@example.com" = none ∧
    ∃ u1 u2 : User,
      (mockSignUp freshStore "alice@example.com" "supersecret").1.error = none ∧
      (mockSignUp freshStore "alice@example.com" "supersecret").1.user = some u1 ∧
      (mockSignIn (mockSignUp freshStore "alice@example.com" "supersecret").2
          "alice@example.com" "supersecret").1.error = none ∧
      (mockSignIn (mockSignUp freshStore "alice@example.com" "supersecret").2
          "alice@example.com" "supersecret").1.user = some u2 ∧
      u2.id = u1.id :=
  ⟨rfl, signUp_then_signIn_same_id freshStore "alice@example.com" "supersecret" rfl⟩
